import Mathlib

/-!
Verification of the Twitch live-chat relay
(`src/open_llm_vtuber/live/twitch_live.py`).

Strings are modelled as `List Char` (Python `str`), machine-faithful to the
string operations the source uses: `str.strip`, `str.split('\r\n')`,
`str.replace`, `str.lstrip('#')`, `str.lower`, `in` (substring test), and
the one regular expression `":(\w+)!.*PRIVMSG #\w+ :(.+)"` used by
`_parse_irc_message`, whose greedy/backtracking semantics are implemented
directly below.
-/

namespace TwitchLive

/-- Python whitespace characters recognised by `str.strip()` (ASCII range). -/
def isPySpace (c : Char) : Bool :=
  c = ' ' || c = '\t' || c = '\n' || c = '\r' || c = '\x0b' || c = '\x0c'

/-- Python `str.strip()`: remove leading and trailing whitespace. -/
def pyStrip (s : List Char) : List Char :=
  ((s.dropWhile isPySpace).reverse.dropWhile isPySpace).reverse

/-- Python `str.lower()` (ASCII case fold, all source inputs are ASCII). -/
def pyLower (s : List Char) : List Char :=
  s.map Char.toLower

/-- Python `str.lstrip('#')`: remove every leading `#`. -/
def lstripHash (s : List Char) : List Char :=
  s.dropWhile (fun c => c = '#')

/-- Python `needle in haystack` substring test. -/
def containsSub (needle : List Char) : List Char → Bool
  | [] => needle.isEmpty
  | c :: t => needle.isPrefixOf (c :: t) || containsSub needle t

/-- Python `s.split('\r\n')`: split on the exact two-character separator,
keeping empty segments (so `"".split` gives `[""]`). -/
def splitCRLF : List Char → List (List Char)
  | [] => [[]]
  | [c] => [[c]]
  | c1 :: c2 :: t =>
    if c1 = '\r' ∧ c2 = '\n' then
      [] :: splitCRLF t
    else
      match splitCRLF (c2 :: t) with
      | h :: r => (c1 :: h) :: r
      | [] => [[c1]]

/-- Python `line.replace("PING", "PONG")`: replace every (left-to-right,
non-overlapping) occurrence. -/
def replacePingPong : List Char → List Char
  | [] => []
  | [c1] => [c1]
  | [c1, c2] => [c1, c2]
  | [c1, c2, c3] => [c1, c2, c3]
  | c1 :: c2 :: c3 :: c4 :: t4 =>
    if c1 = 'P' ∧ c2 = 'I' ∧ c3 = 'N' ∧ c4 = 'G' then
      'P' :: 'O' :: 'N' :: 'G' :: replacePingPong t4
    else
      c1 :: replacePingPong (c2 :: c3 :: c4 :: t4)

/-- Regex `\w` on the ASCII inputs the IRC protocol carries. -/
def isWordChar (c : Char) : Bool :=
  ('a' ≤ c && c ≤ 'z') || ('A' ≤ c && c ≤ 'Z') || ('0' ≤ c && c ≤ '9') || c = '_'

/-- Tail of the regex after the greedy `.*` has chosen a position:
`PRIVMSG #` has just been consumed; match `\w+ :(.+)` and return group 2.
`\w+` is greedy and deterministic here (a shorter match would leave a word
character where the literal space is required); `(.+)` is greedy, `.` does
not cross a newline, and `re.match` does not require the whole string to be
consumed. -/
def matchTail (r : List Char) : Option (List Char) :=
  let w2 := r.takeWhile isWordChar
  if w2.isEmpty then none
  else
    match r.drop w2.length with
    | ' ' :: ':' :: t =>
      let g2 := t.takeWhile (fun c => ¬ c = '\n')
      if g2.isEmpty then none else some g2
    | _ => none

/-- Greedy `.*PRIVMSG #\w+ :(.+)`: the greedy `.*` (which cannot cross a
newline) prefers the latest position at which the rest of the pattern
matches, backtracking to earlier positions on failure. -/
def matchDotStar : List Char → Option (List Char)
  | [] => none
  | c :: t =>
    let later := if c = '\n' then none else matchDotStar t
    match later with
    | some g => some g
    | none =>
      if ("PRIVMSG #".data).isPrefixOf (c :: t) then
        matchTail ((c :: t).drop 9)
      else
        none

/-- The two regex groups of `_parse_irc_message`'s
`re.match(r":(\w+)!.*PRIVMSG #\w+ :(.+)", message)`, guarded by the
source's `if "PRIVMSG" in message` check: `(username, chat_message)`. -/
def parseGroups (message : List Char) : Option (List Char × List Char) :=
  if containsSub "PRIVMSG".data message then
    match message with
    | ':' :: rest =>
      let w := rest.takeWhile isWordChar
      if w.isEmpty then none
      else
        match rest.drop w.length with
        | '!' :: t => (matchDotStar t).map (fun g2 => (w, g2))
        | _ => none
    | _ => none
  else none

/-- `_parse_irc_message`: on a match, return
`f"{username}: {chat_message.strip()}"`, else `None`. -/
def parse_irc_message (message : List Char) : Option (List Char) :=
  (parseGroups message).map (fun p => p.1 ++ ": ".data ++ pyStrip p.2)

/-!
State model of `TwitchLivePlatform`.

The proxy websocket handle is modelled duck-typed, as the source reads it:
`is_connected` probes `hasattr(ws, "closed")` / `hasattr(ws, "open")`, so a
handle carries each of those attributes optionally.  The IRC socket only
ever has truthiness and `close()` observed on it, so it is a `Bool`
(present or not).  Network effects (`websockets.connect`,
`create_connection`, sends, closes) are driven by an `Env` that says which
of them succeed; each call the source makes is recorded as an event.
-/

/-- Duck-typed proxy websocket handle: value of `.closed` if that attribute
exists, value of `.open` if that attribute exists. -/
structure WSHandle where
  attrClosed : Option Bool
  attrOpen : Option Bool
deriving DecidableEq, Repr

/-- Effect of `await ws.close()` on the handle's reported state. -/
def closeWS (h : WSHandle) : WSHandle :=
  ⟨h.attrClosed.map (fun _ => true), h.attrOpen.map (fun _ => false)⟩

/-- The open state the handle reports (`not ws.closed`, else `ws.open`,
else nothing reported). -/
def reportsOpen (h : WSHandle) : Bool :=
  match h.attrClosed with
  | some c => !c
  | none => h.attrOpen.getD false

/-- The mutable fields of a `TwitchLivePlatform` instance. -/
structure State where
  channel : List Char
  oauth_token : List Char
  username : List Char
  websocket : Option WSHandle
  irc_socket : Bool
  connected : Bool
  running : Bool
deriving Repr

/-- `__init__(channel, oauth_token, username)`. -/
def initState (channel oauth_token username : List Char) : State :=
  { channel := lstripHash (pyLower channel)
    oauth_token := oauth_token
    username := if username.isEmpty then "justinfan12345".data else pyLower username
    websocket := none
    irc_socket := false
    connected := false
    running := false }

/-- The decoded form of the frame `_send_to_proxy` serialises:
`{"type": "text-input", "text": text}`. -/
structure OutFrame where
  ftype : List Char
  ftext : List Char
deriving DecidableEq, Repr

/-- Observable calls the client makes on its two connections. -/
inductive Ev where
  | proxyConnectAttempt
  | ircConnectAttempt
  | ircSend (msg : List Char)
  | proxySend (frame : OutFrame)
  | wsCloseAttempt
  | ircCloseAttempt
deriving DecidableEq, Repr

/-- Environment: which network operations succeed during a run.
`proxyHandle` is the handle a successful `websockets.connect` returns. -/
structure Env where
  proxyConnectOk : Bool
  proxyHandle : WSHandle
  ircCreateOk : Bool
  ircSendOk : Bool
  ircCloseRaises : Bool
  wsCloseRaises : Bool
  proxySendOk : Bool
deriving Repr

/-- `is_connected` property: duck-typed probe of the websocket handle,
wrapped in try/except (the body below is total, so the except arm that
returns `False` is unreachable; `None` has neither attribute, so it takes
the final `else` branch, whose `self._websocket is not None` is false). -/
def is_connected (s : State) : Bool :=
  match s.websocket with
  | none => false
  | some h =>
    match h.attrClosed with
    | some c => s.connected && !c
    | none =>
      match h.attrOpen with
      | some o => s.connected && o
      | none => s.connected

/-- `connect(proxy_url)`: on success store the handle and set
`_connected`; on failure return `False` leaving state unchanged. -/
def connect (env : Env) (s : State) : State × Bool × List Ev :=
  if env.proxyConnectOk then
    ({ s with websocket := some env.proxyHandle, connected := true },
     true, [Ev.proxyConnectAttempt])
  else
    (s, false, [Ev.proxyConnectAttempt])

/-- The token actually sent: `oauth:` is prepended when a token is present
and does not already carry the prefix. -/
def effectiveOauth (tok : List Char) : List Char :=
  if ¬ tok.isEmpty ∧ ¬ (("oauth:".data).isPrefixOf tok) then
    "oauth:".data ++ tok
  else tok

/-- The `PASS` line of the IRC handshake. -/
def passCommand (tok : List Char) : List Char :=
  let t := effectiveOauth tok
  if ¬ t.isEmpty then "PASS ".data ++ t ++ "\r\n".data
  else "PASS oauth:anonymous\r\n".data

/-- The `NICK` line of the IRC handshake. -/
def nickCommand (user : List Char) : List Char :=
  "NICK ".data ++ user ++ "\r\n".data

/-- The `JOIN` line of the IRC handshake: `f"JOIN #{self._channel}\r\n"`. -/
def joinCommand (channel : List Char) : List Char :=
  "JOIN #".data ++ channel ++ "\r\n".data

/-- `_connect_to_twitch_irc()`: create the socket, then send
`PASS`/`NICK`/`JOIN`.  If creation raises, the socket field is untouched
and `False` is returned; if a send raises, the socket field has already
been assigned and `False` is returned. -/
def connect_to_twitch_irc (env : Env) (s : State) : State × Bool × List Ev :=
  if ¬ env.ircCreateOk then
    (s, false, [Ev.ircConnectAttempt])
  else
    let s' := { s with irc_socket := true }
    if ¬ env.ircSendOk then
      (s', false, [Ev.ircConnectAttempt])
    else
      (s', true,
       [Ev.ircConnectAttempt,
        Ev.ircSend (passCommand s.oauth_token),
        Ev.ircSend (nickCommand s.username),
        Ev.ircSend (joinCommand s.channel)])

/-- `disconnect()`: flip `_running` off; close the IRC socket if present
(clearing the field only when `close()` does not raise, the raise being
swallowed); close the websocket if present (a raise is swallowed and the
handle keeps its state); clear `_connected`. -/
def disconnect (env : Env) (s : State) : State × List Ev :=
  let s0 := { s with running := false }
  let step1 : State × List Ev :=
    if s0.irc_socket then
      if env.ircCloseRaises then (s0, [Ev.ircCloseAttempt])
      else ({ s0 with irc_socket := false }, [Ev.ircCloseAttempt])
    else (s0, [])
  let s1 := step1.1
  let step2 : State × List Ev :=
    match s1.websocket with
    | some h =>
      if env.wsCloseRaises then (s1, [Ev.wsCloseAttempt])
      else ({ s1 with websocket := some (closeWS h) }, [Ev.wsCloseAttempt])
    | none => (s1, [])
  ({ step2.1 with connected := false }, step1.2 ++ step2.2)

/-- `send_message(text)`: refuse without an IRC socket or OAuth token,
else send `f"PRIVMSG #{self._channel} :{text}\r\n"`.  Returns the line
sent, if any. -/
def send_message (s : State) (text : List Char) : Option (List Char) :=
  if ¬ s.irc_socket ∨ s.oauth_token.isEmpty then none
  else some ("PRIVMSG #".data ++ s.channel ++ " :".data ++ text ++ "\r\n".data)

/-- `_send_to_proxy(text)`: refuse (sending nothing) unless
`is_connected`; on a send failure clear `_connected` and report `False`.
Returns (new state, frame sent if any, return value). -/
def send_to_proxy (env : Env) (s : State) (text : List Char) :
    State × Option OutFrame × Bool :=
  if ¬ is_connected s then (s, none, false)
  else if env.proxySendOk then (s, some ⟨"text-input".data, text⟩, true)
  else ({ s with connected := false }, none, false)

/-- `run()`: set `_running`; connect to the proxy — on failure return (the
`finally` still runs `disconnect`).  Then connect to Twitch IRC — on
failure `disconnect` explicitly and return (the `finally` runs
`disconnect` a second time).  On both succeeding the two concurrent read
loops run to completion; being genuinely concurrent I/O, their combined
effect is abstracted as the caller-supplied `loops`; the `finally` then
disconnects. -/
def run (env : Env) (loops : State → State × List Ev)
    (channel oauth_token username : List Char) : State × List Ev :=
  let s := { initState channel oauth_token username with running := true }
  let c1 := connect env s
  if ¬ c1.2.1 then
    let d := disconnect env c1.1
    (d.1, c1.2.2 ++ d.2)
  else
    let c2 := connect_to_twitch_irc env c1.1
    if ¬ c2.2.1 then
      let d1 := disconnect env c2.1
      let d2 := disconnect env d1.1
      (d2.1, c1.2.2 ++ c2.2.2 ++ d1.2 ++ d2.2)
    else
      let l := loops c2.1
      let d := disconnect env l.1
      (d.1, c1.2.2 ++ c2.2.2 ++ l.2 ++ d.2)

/-!
The chat-monitor loop `_monitor_twitch_chat`: one iteration receives a
response, strips it, splits it on CRLF, and for each non-empty line either
answers a `PING` (and continues with the next line) or parses it as a chat
message, forwarding any parse.  The events one response gives rise to:
-/

/-- What one protocol line makes the monitor loop do: answer a liveness
probe, or forward a parsed chat message to `_handle_chat_message`. -/
inductive MonEvent where
  | pong (frame : List Char)
  | chat (msg : List Char)
deriving DecidableEq, Repr

/-- The body of the `for line in response.strip().split('\r\n')` loop for
one line. -/
def processLine (line : List Char) : List MonEvent :=
  if line.isEmpty then []
  else if ("PING".data).isPrefixOf line then
    [MonEvent.pong (replacePingPong line ++ "\r\n".data)]
  else
    match parse_irc_message line with
    | some m => [MonEvent.chat m]
    | none => []

/-- Process the list of lines a split produced, in order. -/
def processBatchLines (ls : List (List Char)) : List MonEvent :=
  ls.flatMap processLine

/-- Process one raw network read: `response.strip().split('\r\n')`, each
line through the loop body. -/
def processResponse (response : List Char) : List MonEvent :=
  processBatchLines (splitCRLF (pyStrip response))

/-!
The receive loop `start_receiving`: decoded frames are association lists
of field name to field value (Python dicts keep insertion order; keys are
unique).  The only operations the source performs are `in`, `copy`,
item assignment, and `len` of the audio value.
-/

/-- A decoded downstream frame: field name to field value, keys unique. -/
abbrev Frame := List (List Char × List Char)

/-- Python `key in dict`. -/
def dictContains (k : List Char) : Frame → Bool
  | [] => false
  | (k', _) :: t => k' = k || dictContains k t

/-- Python `dict[key] = v` (replaces in place, preserving order). -/
def dictSet (k v : List Char) : Frame → Frame
  | [] => [(k, v)]
  | (k', v') :: t => if k' = k then (k, v) :: t else (k', v') :: dictSet k v t

/-- Python `dict[key]` with a default for the absent case (the source only
reads `data['audio']` under an `"audio" in data` guard). -/
def dictGetD (k : List Char) (d : List Char) : Frame → List Char
  | [] => d
  | (k', v') :: t => if k' = k then v' else dictGetD k d t

/-- `f"[Audio data, length: {len(data['audio'])}]"`. -/
def audioMarker (data : Frame) : List Char :=
  "[Audio data, length: ".data
    ++ (Nat.repr (dictGetD "audio".data [] data).length).data ++ "]".data

/-- The body of one `start_receiving` iteration after decoding `data`:
when an `audio` field is present, the redaction happens on `data.copy()`
(`log_data`), and `handle_incoming_messages` is called with `data`
itself. -/
structure RecvOut where
  logged : Frame
  dispatched : Frame
deriving DecidableEq, Repr

/-- One receive-loop iteration on a decoded frame. -/
def receiveStep (data : Frame) : RecvOut :=
  if dictContains "audio".data data then
    let log_data := data
    let log_data := dictSet "audio".data (audioMarker data) log_data
    ⟨log_data, data⟩
  else
    ⟨data, data⟩

/-- `handle_incoming_messages(message)`: every registered handler (indexed
by registration position) is invoked with the same message object;
returns the invocation record. -/
def handle_incoming_messages (handlers : List Nat) (message : Frame) :
    List (Nat × Frame) :=
  handlers.map (fun h => (h, message))

/-! Helper lemmas about the string primitives. -/

lemma isPrefixOf_append_self (p y : List Char) : p.isPrefixOf (p ++ y) = true := by
  rw [List.isPrefixOf_iff_prefix]
  exact List.prefix_append p y

lemma containsSub_append_mid (a : Char) (as y : List Char) :
    ∀ x : List Char, containsSub (a :: as) (x ++ ((a :: as) ++ y)) = true := by
  intro x
  induction x with
  | nil =>
    show containsSub (a :: as) ((a :: as) ++ y) = true
    rw [List.cons_append]
    simp only [containsSub]
    rw [← List.cons_append, isPrefixOf_append_self]
    simp
  | cons c x ih =>
    rw [List.cons_append]
    simp only [containsSub]
    rw [ih]
    simp

lemma takeWhile_append_stop (p : Char → Bool) (u : List Char)
    (hu : ∀ c ∈ u, p c = true) (c0 : Char) (h0 : p c0 = false) (r : List Char) :
    (u ++ c0 :: r).takeWhile p = u := by
  have h1 : u.takeWhile p = u := List.takeWhile_eq_self_iff.mpr hu
  rw [List.takeWhile_append, h1]
  simp [List.takeWhile_cons, h0]

lemma containsSub_cons_false {p : List Char} {c : Char} {t : List Char}
    (h : containsSub p (c :: t) = false) :
    p.isPrefixOf (c :: t) = false ∧ containsSub p t = false := by
  have h' : (p.isPrefixOf (c :: t) || containsSub p t) = false := h
  exact Bool.or_eq_false_iff.mp h'

lemma replacePingPong_cons_skip (c : Char) (t : List Char)
    (h : ("PING".data).isPrefixOf (c :: t) = false) :
    replacePingPong (c :: t) = c :: replacePingPong t := by
  rcases t with _ | ⟨c2, t2⟩
  · rfl
  rcases t2 with _ | ⟨c3, t3⟩
  · rfl
  rcases t3 with _ | ⟨c4, t4⟩
  · rfl
  have hno : ¬ (c = 'P' ∧ c2 = 'I' ∧ c3 = 'N' ∧ c4 = 'G') := by
    rintro ⟨rfl, rfl, rfl, rfl⟩
    simp [List.isPrefixOf] at h
  simp only [replacePingPong, if_neg hno]

lemma replacePingPong_eq_self (s : List Char)
    (h : containsSub "PING".data s = false) : replacePingPong s = s := by
  induction s with
  | nil => rfl
  | cons c t ih =>
    have h' := containsSub_cons_false h
    rw [replacePingPong_cons_skip c t h'.1, ih h'.2]

lemma replacePingPong_ping_head (t : List Char) :
    replacePingPong ("PING".data ++ t) = "PONG".data ++ replacePingPong t := by
  rfl

lemma splitCRLF_sep_cons (r : List Char) :
    splitCRLF ('\r' :: '\n' :: r) = [] :: splitCRLF r := by
  simp [splitCRLF]

lemma splitCRLF_cons_step (c1 c2 : Char) (t l : List Char) (ls : List (List Char))
    (hno : ¬ (c1 = '\r' ∧ c2 = '\n')) (h2 : splitCRLF (c2 :: t) = l :: ls) :
    splitCRLF (c1 :: c2 :: t) = (c1 :: l) :: ls := by
  simp only [splitCRLF, if_neg hno, h2]

lemma splitCRLF_no_sep (b : List Char) (h : containsSub "\r\n".data b = false) :
    splitCRLF b = [b] := by
  induction b with
  | nil => rfl
  | cons c1 t ih =>
    rcases t with _ | ⟨c2, t2⟩
    · rfl
    have h' := containsSub_cons_false h
    have hno : ¬ (c1 = '\r' ∧ c2 = '\n') := by
      rintro ⟨rfl, rfl⟩
      simp [List.isPrefixOf] at h'
    exact splitCRLF_cons_step c1 c2 t2 _ _ hno (ih h'.2)

lemma splitCRLF_append_sep (a : List Char) (h : containsSub "\r\n".data a = false)
    (r : List Char) :
    splitCRLF (a ++ '\r' :: '\n' :: r) = a :: splitCRLF r := by
  induction a with
  | nil =>
    rw [List.nil_append]
    exact splitCRLF_sep_cons r
  | cons c1 t ih =>
    have h' := containsSub_cons_false h
    have ih2 := ih h'.2
    rcases t with _ | ⟨c2, t2⟩
    · rw [List.nil_append] at ih2
      rw [List.cons_append, List.nil_append]
      have hno : ¬ (c1 = '\r' ∧ '\r' = '\n') := by
        rintro ⟨rfl, h2⟩
        exact absurd h2 (by decide)
      exact splitCRLF_cons_step c1 '\r' ('\n' :: r) _ _ hno ih2
    · have hno : ¬ (c1 = '\r' ∧ c2 = '\n') := by
        rintro ⟨rfl, rfl⟩
        simp [List.isPrefixOf] at h'
      rw [List.cons_append] at ih2 ⊢
      exact splitCRLF_cons_step c1 c2 (t2 ++ '\r' :: '\n' :: r) _ _ hno ih2

/-! Helper lemmas about the regex matcher. -/

lemma matchDotStar_none (s : List Char)
    (h : containsSub "PRIVMSG #".data s = false) : matchDotStar s = none := by
  induction s with
  | nil => rfl
  | cons c t ih =>
    have h' := containsSub_cons_false h
    have ht := ih h'.2
    by_cases hc : c = '\n'
    · simp [matchDotStar, hc, h'.1]
    · simp [matchDotStar, hc, ht, h'.1]

lemma matchTail_canonical (chan text : List Char) (hc1 : chan ≠ [])
    (hc2 : ∀ c ∈ chan, isWordChar c = true) (ht1 : text ≠ [])
    (ht2 : ∀ c ∈ text, ¬ c = '\n') :
    matchTail (chan ++ ' ' :: ':' :: text) = some text := by
  have hw : (chan ++ ' ' :: ':' :: text).takeWhile isWordChar = chan :=
    takeWhile_append_stop isWordChar chan hc2 ' ' (by decide) (':' :: text)
  have hne : chan.isEmpty = false := by
    rcases chan with _ | _
    · exact absurd rfl hc1
    · rfl
  have htw : text.takeWhile (fun c => decide (¬ c = '\n')) = text :=
    List.takeWhile_eq_self_iff.mpr (fun c hc => by simp [ht2 c hc])
  have hte : text.isEmpty = false := by
    rcases text with _ | _
    · exact absurd rfl ht1
    · rfl
  simp only [matchTail, hw, hne, Bool.false_eq_true, if_false, List.drop_left,
    htw, hte]

lemma containsSub_append_right_false {p x y : List Char}
    (h : containsSub p (x ++ y) = false) : containsSub p y = false := by
  induction x with
  | nil => exact h
  | cons c x ih =>
    rw [List.cons_append] at h
    exact ih (containsSub_cons_false h).2

lemma matchDotStar_canonical (mid rest g : List Char)
    (hm : ∀ c ∈ mid, ¬ c = '\n')
    (hno : containsSub "PRIVMSG #".data ("RIVMSG #".data ++ rest) = false)
    (htail : matchTail rest = some g) :
    matchDotStar (mid ++ ("PRIVMSG #".data ++ rest)) = some g := by
  induction mid with
  | nil =>
    have hrest : containsSub "PRIVMSG #".data rest = false :=
      containsSub_append_right_false hno
    have h1 : matchDotStar rest = none := matchDotStar_none rest hrest
    rw [List.nil_append]
    rw [show "PRIVMSG #".data ++ rest = 'P' :: ("RIVMSG #".data ++ rest) from rfl]
    simp [matchDotStar, h1, htail]
  | cons c mid' ih =>
    have hc : ¬ c = '\n' := hm c (by simp)
    have ih2 := ih (fun x hx => hm x (by simp [hx]))
    rw [List.cons_append]
    simp only [matchDotStar]
    rw [if_neg hc, ih2]

/-- The canonical chat-post shape the parser accepts: the regex groups are
the username and the raw text.  `hno` says the shown command occurrence is
the last viable one in the line (the greedy `.*` picks the last). -/
lemma parseGroups_canonical (user mid chan text : List Char)
    (hu1 : user ≠ []) (hu2 : ∀ c ∈ user, isWordChar c = true)
    (hm : ∀ c ∈ mid, ¬ c = '\n')
    (hc1 : chan ≠ []) (hc2 : ∀ c ∈ chan, isWordChar c = true)
    (ht1 : text ≠ []) (ht2 : ∀ c ∈ text, ¬ c = '\n')
    (hno : containsSub "PRIVMSG #".data
      ("RIVMSG #".data ++ (chan ++ ' ' :: ':' :: text)) = false) :
    parseGroups
        (':' :: (user ++ ('!' :: (mid ++ ("PRIVMSG #".data ++ (chan ++ ' ' :: ':' :: text))))))
      = some (user, text) := by
  have hcontains : containsSub "PRIVMSG".data
      (':' :: (user ++ ('!' :: (mid ++ ("PRIVMSG #".data ++ (chan ++ ' ' :: ':' :: text))))))
      = true := by
    have h0 := containsSub_append_mid 'P' "RIVMSG".data
      (' ' :: '#' :: (chan ++ ' ' :: ':' :: text)) (':' :: (user ++ ('!' :: mid)))
    have he : (':' :: (user ++ ('!' :: mid)))
          ++ (('P' :: "RIVMSG".data) ++ (' ' :: '#' :: (chan ++ ' ' :: ':' :: text)))
        = ':' :: (user ++ ('!' :: (mid ++ ("PRIVMSG #".data ++ (chan ++ ' ' :: ':' :: text))))) := by
      simp only [List.append_assoc, List.cons_append]
      rfl
    rw [← he]
    exact h0
  have hw : (user ++ ('!' :: (mid ++ ("PRIVMSG #".data ++ (chan ++ ' ' :: ':' :: text))))).takeWhile
      isWordChar = user :=
    takeWhile_append_stop isWordChar user hu2 '!' (by decide) _
  have hne : user.isEmpty = false := by
    rcases user with _ | _
    · exact absurd rfl hu1
    · rfl
  have hdrop : (user ++ ('!' :: (mid ++ ("PRIVMSG #".data ++ (chan ++ ' ' :: ':' :: text))))).drop
      user.length = '!' :: (mid ++ ("PRIVMSG #".data ++ (chan ++ ' ' :: ':' :: text))) :=
    List.drop_left user _
  have hstar : matchDotStar (mid ++ ("PRIVMSG #".data ++ (chan ++ ' ' :: ':' :: text)))
      = some text :=
    matchDotStar_canonical mid (chan ++ ' ' :: ':' :: text) text hm hno
      (matchTail_canonical chan text hc1 hc2 ht1 ht2)
  simp only [parseGroups, hcontains, if_true, hw, hne, Bool.false_eq_true, if_false,
    hdrop, hstar]
  rfl

lemma parse_none_of_no_privmsg (l : List Char)
    (h : containsSub "PRIVMSG".data l = false) : parse_irc_message l = none := by
  simp [parse_irc_message, parseGroups, h]

/-! Helper lemmas about the lifecycle model. -/

lemma reportsOpen_closeWS (h : WSHandle) : reportsOpen (closeWS h) = false := by
  cases h with
  | mk a b => cases a <;> cases b <;> rfl

lemma closeWS_idem (h : WSHandle) : closeWS (closeWS h) = closeWS h := by
  cases h with
  | mk a b => cases a <;> cases b <;> rfl

lemma disconnect_running (env : Env) (s : State) :
    (disconnect env s).1.running = false := by
  cases hi : s.irc_socket <;> cases hw : s.websocket <;>
    simp [disconnect, hi, hw] <;> split_ifs <;> rfl

lemma disconnect_connected (env : Env) (s : State) :
    (disconnect env s).1.connected = false := by
  cases hi : s.irc_socket <;> cases hw : s.websocket <;>
    simp [disconnect, hi, hw]

lemma disconnect_irc (env : Env) (s : State) (h : env.ircCloseRaises = false) :
    (disconnect env s).1.irc_socket = false := by
  cases hi : s.irc_socket <;> cases hw : s.websocket <;>
    simp [disconnect, hi, hw, h] <;> split_ifs <;> rfl

lemma disconnect_ws (env : Env) (s : State) (h : env.wsCloseRaises = false) :
    (disconnect env s).1.websocket = s.websocket.map closeWS := by
  cases hi : s.irc_socket <;> cases hw : s.websocket <;>
    simp [disconnect, hi, hw, h] <;> split_ifs <;> rfl

lemma head_dropWhile_hash (s : List Char) :
    (s.dropWhile (fun c => c = '#')).head? ≠ some '#' := by
  induction s with
  | nil => simp
  | cons c t ih =>
    by_cases hc : c = '#'
    · simpa [List.dropWhile_cons, hc] using ih
    · simp [List.dropWhile_cons, hc]

/-! The claims. -/

/-- Claim C1, counterexample.  The claim says a PRIVMSG addressed to a
channel other than the joined one parses to nothing, and that the text of
a chat post on the joined channel is taken verbatim.  With configured
channel `bobstream`: a PRIVMSG to `#other` still parses (the regex matches
`#\w+`, it never consults the joined channel), and the text `"hi  "` is
returned whitespace-stripped, not verbatim (the claim would require
`"alice: hi  "`). -/
theorem c1_counterexample :
    parse_irc_message (":bob!b@b.tmi.twitch.tv PRIVMSG #other :spy".data)
      = some ("bob: spy".data)
  ∧ parse_irc_message (":alice!a@a.tmi.twitch.tv PRIVMSG #bobstream :hi  ".data)
      = some ("alice: hi".data)
  ∧ "alice: hi".data ≠ "alice: hi  ".data := by
  refine ⟨by decide, by decide, by decide⟩

/-- Claim C1, amended.  For every raw IRC line of the shape
`:<user>!<middle> PRIVMSG #<chan> :<text>` — user and chan nonempty runs of
word characters, middle and text free of newlines, text nonempty, and the
shown command occurrence the last viable one — parsing yields exactly one
chat message carrying author `user` and the text with surrounding
whitespace stripped (not verbatim), for any channel `chan` (the joined
channel is not consulted); and every line not containing the substring
`PRIVMSG` (liveness probes, join/part notices, capability acks) parses to
nothing, raising no error (the parser is a total function). -/
theorem c1_amended_parse :
    (∀ user mid chan text : List Char,
      user ≠ [] → (∀ c ∈ user, isWordChar c = true) →
      (∀ c ∈ mid, ¬ c = '\n') →
      chan ≠ [] → (∀ c ∈ chan, isWordChar c = true) →
      text ≠ [] → (∀ c ∈ text, ¬ c = '\n') →
      containsSub "PRIVMSG #".data
        ("RIVMSG #".data ++ (chan ++ ' ' :: ':' :: text)) = false →
      parse_irc_message
          (':' :: (user ++ ('!' :: (mid ++ ("PRIVMSG #".data ++ (chan ++ ' ' :: ':' :: text))))))
        = some (user ++ ": ".data ++ pyStrip text))
  ∧ (∀ l : List Char, containsSub "PRIVMSG".data l = false →
      parse_irc_message l = none) := by
  constructor
  · intro user mid chan text hu1 hu2 hm hc1 hc2 ht1 ht2 hno
    rw [parse_irc_message,
      parseGroups_canonical user mid chan text hu1 hu2 hm hc1 hc2 ht1 ht2 hno]
    rfl
  · intro l h
    exact parse_none_of_no_privmsg l h

/-- Witness for the amended C1 at the spec's example line and at a
liveness probe. -/
theorem c1_amended_parse_witness :
    parse_irc_message
        (':' :: ("alice".data ++ ('!' :: ("alice@alice.tmi.twitch.tv ".data
          ++ ("PRIVMSG #".data ++ ("bobstream".data ++ ' ' :: ':' :: "hello world".data))))))
      = some ("alice".data ++ ": ".data ++ pyStrip "hello world".data)
  ∧ parse_irc_message ("PING :tmi.twitch.tv".data) = none := by
  constructor
  · exact c1_amended_parse.1 "alice".data "alice@alice.tmi.twitch.tv ".data
      "bobstream".data "hello world".data (by decide) (by decide) (by decide)
      (by decide) (by decide) (by decide) (by decide) (by decide)
  · exact c1_amended_parse.2 "PING :tmi.twitch.tv".data (by decide)

/-- Claim C2.  The spec's example: the chat-poll pipeline on the raw read
`:alice!alice@alice.tmi.twitch.tv PRIVMSG #bobstream :hello world\r\n`
parses exactly one chat message, `alice: hello world` (for any configured
channel — the parser does not consult it, in particular for `bobstream`),
and forwarding it over a connected relay sends exactly the frame whose
decoded form is `{type: "text-input", text: "alice: hello world"}`. -/
theorem c2_pipeline :
    processResponse
        (":alice!alice@alice.tmi.twitch.tv PRIVMSG #bobstream :hello world\r\n".data)
      = [MonEvent.chat ("alice: hello world".data)]
  ∧ (∀ (env : Env) (s : State), is_connected s = true → env.proxySendOk = true →
      send_to_proxy env s ("alice: hello world".data)
        = (s, some ⟨"text-input".data, "alice: hello world".data⟩, true)) := by
  constructor
  · decide
  · intro env s h1 h2
    simp [send_to_proxy, h1, h2]

/-- Witness for C2: the forward step at a concrete `Ready` bridge state. -/
theorem c2_pipeline_witness :
    send_to_proxy
        ⟨true, ⟨some false, none⟩, true, true, false, false, true⟩
        { channel := "bobstream".data, oauth_token := [], username := "justinfan12345".data
          websocket := some ⟨some false, none⟩, irc_socket := true
          connected := true, running := true }
        ("alice: hello world".data)
      = ({ channel := "bobstream".data, oauth_token := [], username := "justinfan12345".data
           websocket := some ⟨some false, none⟩, irc_socket := true
           connected := true, running := true },
         some ⟨"text-input".data, "alice: hello world".data⟩, true) := by
  exact c2_pipeline.2 ⟨true, ⟨some false, none⟩, true, true, false, false, true⟩
    { channel := "bobstream".data, oauth_token := [], username := "justinfan12345".data
      websocket := some ⟨some false, none⟩, irc_socket := true
      connected := true, running := true } rfl rfl

/-- Claim C3, counterexample.  The claim says the liveness response echoes
the probe's token.  The source builds the response with
`line.replace("PING", "PONG")`, which also rewrites the token: for the
probe `PING :PING` the claim requires the response `PONG :PING\r\n`, but
the loop sends `PONG :PONG\r\n`. -/
theorem c3_counterexample :
    processLine ("PING :PING".data) = [MonEvent.pong ("PONG :PONG\r\n".data)]
  ∧ processLine ("PING :PING".data) ≠ [MonEvent.pong ("PONG :PING\r\n".data)] := by
  refine ⟨by decide, by decide⟩

/-- Claim C3, amended.  For every line of a batch that starts with `PING`,
the monitor loop sends exactly one liveness response — the line with every
occurrence of `PING` replaced by `PONG`, followed by CRLF, which echoes
the token exactly when the token itself does not contain `PING` —
produces no chat message for that line, and continues with the remaining
lines of the batch. -/
theorem c3_amended_ping_pong (t : List Char) (pre post : List (List Char))
    (h : containsSub "PING".data t = false) :
    processBatchLines (pre ++ ("PING".data ++ t) :: post)
      = processBatchLines pre
        ++ MonEvent.pong ("PONG".data ++ t ++ "\r\n".data) :: processBatchLines post := by
  have hpre : ("PING".data).isPrefixOf ("PING".data ++ t) = true :=
    isPrefixOf_append_self _ _
  have hemp : ("PING".data ++ t).isEmpty = false := rfl
  have hrpp : replacePingPong ("PING".data ++ t) = "PONG".data ++ t := by
    rw [replacePingPong_ping_head, replacePingPong_eq_self t h]
  have hline : processLine ("PING".data ++ t)
      = [MonEvent.pong ("PONG".data ++ t ++ "\r\n".data)] := by
    rw [processLine, if_neg (by simp [hemp]), if_pos hpre, hrpp]
  rw [show processBatchLines (pre ++ ("PING".data ++ t) :: post)
      = processBatchLines pre ++ (processLine ("PING".data ++ t) ++ processBatchLines post) from by
    rw [processBatchLines, processBatchLines, processBatchLines,
      List.flatMap_append, List.flatMap_cons]]
  rw [hline]
  rfl

/-- Witness for the amended C3 at the spec's example probe. -/
theorem c3_amended_ping_pong_witness :
    processBatchLines [("PING".data ++ " :tmi.twitch.tv".data)]
      = [MonEvent.pong ("PONG".data ++ " :tmi.twitch.tv".data ++ "\r\n".data)] := by
  have h := c3_amended_ping_pong " :tmi.twitch.tv".data [] [] (by decide)
  simpa using h

/-- Claim C4.  A single network read whose stripped payload is two
CRLF-joined protocol lines is processed as the two lines independently
(and an empty segment contributes nothing).  In particular — see the
witness — one read carrying one PING line and one PRIVMSG line produces
exactly one PONG and exactly one parsed-and-forwarded chat message. -/
theorem c4_batch_split (r a b : List Char)
    (ha : containsSub "\r\n".data a = false)
    (hb : containsSub "\r\n".data b = false)
    (hs : pyStrip r = a ++ '\r' :: '\n' :: b) :
    processResponse r = processLine a ++ processLine b
  ∧ processLine [] = [] := by
  constructor
  · rw [processResponse, hs, splitCRLF_append_sep a ha b, splitCRLF_no_sep b hb]
    simp [processBatchLines]
  · rfl

/-- Witness for C4: one read carrying a PING and a PRIVMSG (with the
trailing CRLF a real read ends in) yields exactly one PONG and one chat
message. -/
theorem c4_batch_split_witness :
    processResponse
        ("PING :tmi.twitch.tv\r\n:alice!alice@alice.tmi.twitch.tv PRIVMSG #bobstream :hello world\r\n".data)
      = [MonEvent.pong ("PONG :tmi.twitch.tv\r\n".data),
         MonEvent.chat ("alice: hello world".data)] := by
  have h := c4_batch_split
    ("PING :tmi.twitch.tv\r\n:alice!alice@alice.tmi.twitch.tv PRIVMSG #bobstream :hello world\r\n".data)
    ("PING :tmi.twitch.tv".data)
    (":alice!alice@alice.tmi.twitch.tv PRIVMSG #bobstream :hello world".data)
    (by decide) (by decide) (by decide)
  rw [h.1]
  decide

/-- Claim C5.  If the proxy (relay) connection attempt fails, the IRC
(chat) connection is never attempted — the run's trace is exactly the one
failed proxy attempt, so in particular no IRC connect, no IRC send and no
relay frame occur — and run returns with no chat session (no IRC socket),
no stored relay handle, and the connected/running flags off. -/
theorem c5_relay_fail_no_chat (env : Env) (loops : State → State × List Ev)
    (channel oauth_token username : List Char)
    (h : env.proxyConnectOk = false) :
    (run env loops channel oauth_token username).2 = [Ev.proxyConnectAttempt]
  ∧ Ev.ircConnectAttempt ∉ (run env loops channel oauth_token username).2
  ∧ (∀ f, Ev.proxySend f ∉ (run env loops channel oauth_token username).2)
  ∧ (∀ m, Ev.ircSend m ∉ (run env loops channel oauth_token username).2)
  ∧ (run env loops channel oauth_token username).1.irc_socket = false
  ∧ (run env loops channel oauth_token username).1.websocket = none
  ∧ (run env loops channel oauth_token username).1.connected = false
  ∧ (run env loops channel oauth_token username).1.running = false := by
  simp [run, connect, disconnect, initState, h]

/-- Witness for C5 at a concrete failing environment. -/
theorem c5_relay_fail_no_chat_witness :
    (run ⟨false, ⟨some false, none⟩, true, true, false, false, true⟩
        (fun s => (s, [])) "bobstream".data [] []).2 = [Ev.proxyConnectAttempt]
  ∧ (run ⟨false, ⟨some false, none⟩, true, true, false, false, true⟩
        (fun s => (s, [])) "bobstream".data [] []).1.irc_socket = false := by
  have h := c5_relay_fail_no_chat ⟨false, ⟨some false, none⟩, true, true, false, false, true⟩
    (fun s => (s, [])) "bobstream".data [] [] rfl
  exact ⟨h.1, h.2.2.2.2.1⟩

/-- Claim C6.  If the proxy connection succeeds but the IRC connection
fails (either the socket creation or the handshake send), the relay
websocket is closed before `run` returns: the close call appears in the
trace, and — when the close itself does not raise — the stored handle is
the closed one, which no longer reports open; the IRC socket is likewise
released (when its close does not raise), and the flags end off.  No
relay frame is ever sent. -/
theorem c6_chat_fail_relay_closed (env : Env) (loops : State → State × List Ev)
    (channel oauth_token username : List Char)
    (h1 : env.proxyConnectOk = true)
    (h2 : env.ircCreateOk = false ∨ env.ircSendOk = false) :
    Ev.wsCloseAttempt ∈ (run env loops channel oauth_token username).2
  ∧ (run env loops channel oauth_token username).1.connected = false
  ∧ (run env loops channel oauth_token username).1.running = false
  ∧ (∀ f, Ev.proxySend f ∉ (run env loops channel oauth_token username).2)
  ∧ (env.wsCloseRaises = false →
      (run env loops channel oauth_token username).1.websocket
        = some (closeWS env.proxyHandle)
      ∧ reportsOpen (closeWS env.proxyHandle) = false)
  ∧ (env.ircCloseRaises = false →
      (run env loops channel oauth_token username).1.irc_socket = false) := by
  rcases h2 with h2 | h2 <;>
    cases hcr : env.ircCreateOk <;>
    cases hir : env.ircCloseRaises <;>
    cases hwr : env.wsCloseRaises <;>
    simp_all [run, connect, connect_to_twitch_irc, disconnect, initState,
      closeWS_idem, reportsOpen_closeWS]

/-- Witness for C6: concrete run where the relay connects and the IRC
socket creation fails. -/
theorem c6_chat_fail_relay_closed_witness :
    Ev.wsCloseAttempt ∈ (run ⟨true, ⟨some false, none⟩, false, true, false, false, true⟩
        (fun s => (s, [])) "bobstream".data [] []).2
  ∧ (run ⟨true, ⟨some false, none⟩, false, true, false, false, true⟩
        (fun s => (s, [])) "bobstream".data [] []).1.websocket
      = some (closeWS ⟨some false, none⟩) := by
  have h := c6_chat_fail_relay_closed ⟨true, ⟨some false, none⟩, false, true, false, false, true⟩
    (fun s => (s, [])) "bobstream".data [] [] rfl (Or.inl rfl)
  exact ⟨h.1, (h.2.2.2.2.1 rfl).1⟩

/-- Claim C7.  `disconnect` twice in a row, from any starting state
(including never-connected) and whatever the close calls do, raises no
error (it is a total function: the source swallows close exceptions) and
leaves the running and connected flags off after each invocation; and
whenever the close calls do not themselves raise, both sockets are
released after each invocation (IRC socket field cleared, relay handle
reporting not-open). -/
theorem c7_disconnect_idempotent (env1 env2 : Env) (s : State) :
    ((disconnect env1 s).1.running = false ∧ (disconnect env1 s).1.connected = false)
  ∧ ((disconnect env2 (disconnect env1 s).1).1.running = false
     ∧ (disconnect env2 (disconnect env1 s).1).1.connected = false)
  ∧ (env1.ircCloseRaises = false → env1.wsCloseRaises = false →
      (disconnect env1 s).1.irc_socket = false
    ∧ ∀ hdl, (disconnect env1 s).1.websocket = some hdl → reportsOpen hdl = false)
  ∧ (env2.ircCloseRaises = false → env2.wsCloseRaises = false →
      (disconnect env2 (disconnect env1 s).1).1.irc_socket = false
    ∧ ∀ hdl, (disconnect env2 (disconnect env1 s).1).1.websocket = some hdl →
        reportsOpen hdl = false) := by
  refine ⟨⟨disconnect_running env1 s, disconnect_connected env1 s⟩,
    ⟨disconnect_running env2 _, disconnect_connected env2 _⟩, ?_, ?_⟩
  · intro hi hw
    refine ⟨disconnect_irc env1 s hi, ?_⟩
    intro hdl hh
    rw [disconnect_ws env1 s hw] at hh
    rcases hws : s.websocket with _ | h0 <;> rw [hws] at hh
    · simp at hh
    · simp at hh
      rw [← hh]
      exact reportsOpen_closeWS h0
  · intro hi2 hw2
    refine ⟨disconnect_irc env2 _ hi2, ?_⟩
    intro hdl hh
    rw [disconnect_ws env2 _ hw2] at hh
    rcases hws : (disconnect env1 s).1.websocket with _ | h0 <;> rw [hws] at hh
    · simp at hh
    · simp at hh
      rw [← hh]
      exact reportsOpen_closeWS h0

/-- Witness for C7 at a concrete fully-connected state and benign closes. -/
theorem c7_disconnect_idempotent_witness :
    (disconnect ⟨false, ⟨some false, none⟩, true, true, false, false, true⟩
        { channel := "bobstream".data, oauth_token := [], username := []
          websocket := some ⟨some false, none⟩, irc_socket := true
          connected := true, running := true }).1.running = false
  ∧ (disconnect ⟨false, ⟨some false, none⟩, true, true, false, false, true⟩
        { channel := "bobstream".data, oauth_token := [], username := []
          websocket := some ⟨some false, none⟩, irc_socket := true
          connected := true, running := true }).1.irc_socket = false := by
  have h := c7_disconnect_idempotent
    ⟨false, ⟨some false, none⟩, true, true, false, false, true⟩
    ⟨false, ⟨some false, none⟩, true, true, false, false, true⟩
    { channel := "bobstream".data, oauth_token := [], username := []
      websocket := some ⟨some false, none⟩, irc_socket := true
      connected := true, running := true }
  exact ⟨h.1.1, (h.2.2.1 rfl rfl).1⟩

/-- Claim C8.  The stored channel never has a leading `#` (construction
lowercases and strips every leading `#`), and the `#` is re-added exactly
when the protocol commands are built: the JOIN line is `JOIN #` followed
by the stored channel, and any PRIVMSG line `send_message` emits for an
instance with that stored channel is `PRIVMSG #` followed by the stored
channel, ` :`, and the text. -/
theorem c8_channel_hash (raw tok user text : List Char) :
    (initState raw tok user).channel.head? ≠ some '#'
  ∧ joinCommand (initState raw tok user).channel
      = "JOIN #".data ++ (initState raw tok user).channel ++ "\r\n".data
  ∧ (∀ (s : State) (m : List Char), s.channel = (initState raw tok user).channel →
      send_message s text = some m →
      m = "PRIVMSG #".data ++ s.channel ++ " :".data ++ text ++ "\r\n".data) := by
  refine ⟨head_dropWhile_hash (pyLower raw), rfl, ?_⟩
  intro s m hch hm
  by_cases hcond : (¬ s.irc_socket ∨ s.oauth_token.isEmpty)
  · rw [send_message, if_pos hcond] at hm
    exact absurd hm (by simp)
  · rw [send_message, if_neg hcond] at hm
    exact (Option.some_inj.mp hm).symm

/-- Witness for C8 at the channel literal `#BobStream` and text `hi`. -/
theorem c8_channel_hash_witness :
    (initState "#BobStream".data "tok".data []).channel.head? ≠ some '#'
  ∧ "PRIVMSG #bobstream :hi\r\n".data
      = "PRIVMSG #".data ++ (initState "#BobStream".data "tok".data []).channel
        ++ " :".data ++ "hi".data ++ "\r\n".data := by
  have h := c8_channel_hash "#BobStream".data "tok".data [] "hi".data
  refine ⟨h.1, ?_⟩
  have h2 := h.2.2
    { channel := (initState "#BobStream".data "tok".data []).channel
      oauth_token := "tok".data, username := [], websocket := none
      irc_socket := true, connected := false, running := false }
    ("PRIVMSG #bobstream :hi\r\n".data) rfl (by decide)
  exact h2

/-- Claim C9.  `is_connected` is a total function (the duck-typed probes
are modelled exhaustively, so the defensive except arm is never needed);
over every state whose stored handle (if any) exposes at least one of the
status attributes the source probes, it is true exactly when a handle
exists, the connected flag is set, and the handle reports open.  And
forwarding before any successful relay connect — i.e. from the
freshly-constructed state — never sends a frame and returns failure. -/
theorem c9_is_connected_characterization (s : State)
    (hst : ∀ hdl, s.websocket = some hdl →
      (hdl.attrClosed.isSome || hdl.attrOpen.isSome) = true) :
    (is_connected s = true ↔
      s.connected = true ∧ ∃ hdl, s.websocket = some hdl ∧ reportsOpen hdl = true)
  ∧ (∀ (env : Env) (ch tok user text : List Char),
      send_to_proxy env (initState ch tok user) text
        = (initState ch tok user, none, false)) := by
  constructor
  · rcases hws : s.websocket with _ | hdl
    · simp [is_connected, hws]
    · have hattr := hst hdl hws
      rcases hc : hdl.attrClosed with _ | c
      · rcases ho : hdl.attrOpen with _ | o
        · rw [hc, ho] at hattr
          simp at hattr
        · simp [is_connected, hws, hc, ho, reportsOpen, Bool.and_eq_true]
      · simp [is_connected, hws, hc, reportsOpen, Bool.and_eq_true]
  · intro env ch tok user text
    simp [send_to_proxy, is_connected, initState]

/-- Witness for C9 at a concrete open-handle state and fresh instance. -/
theorem c9_is_connected_characterization_witness :
    (is_connected
        { channel := "bobstream".data, oauth_token := [], username := []
          websocket := some ⟨some false, none⟩, irc_socket := false
          connected := true, running := true } = true ↔
      ({ channel := "bobstream".data, oauth_token := [], username := []
         websocket := some ⟨some false, none⟩, irc_socket := false
         connected := true, running := true } : State).connected = true
      ∧ ∃ hdl, ({ channel := "bobstream".data, oauth_token := [], username := []
                  websocket := some ⟨some false, none⟩, irc_socket := false
                  connected := true, running := true } : State).websocket = some hdl
          ∧ reportsOpen hdl = true)
  ∧ send_to_proxy ⟨true, ⟨some false, none⟩, true, true, false, false, true⟩
      (initState "bobstream".data [] []) "hi".data
      = (initState "bobstream".data [] [], none, false) := by
  have h := c9_is_connected_characterization
    { channel := "bobstream".data, oauth_token := [], username := []
      websocket := some ⟨some false, none⟩, irc_socket := false
      connected := true, running := true }
    (by intro hdl hh; cases hh; rfl)
  exact ⟨h.1, h.2 ⟨true, ⟨some false, none⟩, true, true, false, false, true⟩
    "bobstream".data [] [] "hi".data⟩

/-- Claim C10.  For every decoded frame carrying an `audio` field, the
receive loop performs the log redaction on a copy: the logged value has
the audio field replaced by the length marker, while the object dispatched
to `handle_incoming_messages` — and hence the message every registered
handler receives — is the original frame, audio field and all other
fields unchanged. -/
theorem c10_audio_redaction_copy (data : Frame) (handlers : List Nat)
    (h : dictContains "audio".data data = true) :
    (receiveStep data).dispatched = data
  ∧ dictGetD "audio".data [] (receiveStep data).dispatched
      = dictGetD "audio".data [] data
  ∧ handle_incoming_messages handlers (receiveStep data).dispatched
      = handlers.map (fun i => (i, data))
  ∧ (receiveStep data).logged = dictSet "audio".data (audioMarker data) data := by
  simp [receiveStep, h, handle_incoming_messages]

/-- Witness for C10 at a concrete audio frame. -/
theorem c10_audio_redaction_copy_witness :
    (receiveStep [("type".data, "audio-play".data), ("audio".data, "QUJD".data)]).dispatched
      = [("type".data, "audio-play".data), ("audio".data, "QUJD".data)]
  ∧ (receiveStep [("type".data, "audio-play".data), ("audio".data, "QUJD".data)]).logged
      = dictSet "audio".data
          (audioMarker [("type".data, "audio-play".data), ("audio".data, "QUJD".data)])
          [("type".data, "audio-play".data), ("audio".data, "QUJD".data)] := by
  have h := c10_audio_redaction_copy
    [("type".data, "audio-play".data), ("audio".data, "QUJD".data)] [0] (by decide)
  exact ⟨h.1, h.2.2.2⟩

end TwitchLive
